import Mathlib

/-!
Shallow embedding of `src/kernel/lib/code-patching/hermetic-stub.py`.

The script reads a JSON metadata file describing "alternative" implementation
files, computes the maximum on-disk byte size among them, writes a makefile
style dependency record, and renders a stub assembly file from a template,
followed by one alias block per requested alias.

The embedding models the interpreter state the script touches: the filesystem
is abstracted as an `Env` of oracles (`loadJson` for `open` + `json.load`,
`getSize` for `os.path.getsize`, `canWrite` for opening an output file for
writing), plus the current year from `datetime.today()`.  Python exceptions
become an explicit `PyError`; the run result records what each output file
holds on disk when the process ends (`none` = the file was never created).
-/

namespace HermeticStub

/-- A JSON value, as produced by `json.load`. -/
inductive JVal where
  | null
  | bool (b : Bool)
  | num (n : Int)
  | str (s : String)
  | arr (elems : List JVal)
  | obj (fields : List (String × JVal))

/-- The parsed command line (`argparse`).  None of the options carry
`required=True` in the source, so every one of them may be absent
(`None` in Python); `--aliases` defaults to the empty list. -/
structure Args where
  name : Option String
  header : Option String
  metadata_file : Option String
  aliases : List String
  depfile : Option String
  outfile : Option String

/-- The Python exceptions the script can die with.  None of them is caught. -/
inductive PyError where
  | typeError
  | fileNotFoundError (path : String)
  | jsonDecodeError
  | keyError (key : String)
  | attributeError
  | osError (path : String)
deriving DecidableEq

/-- The ambient interpreter environment.
`loadJson p = none` models `open(p)` raising (missing or unreadable file);
`loadJson p = some none` models `json.load` raising (malformed JSON);
`loadJson p = some (some v)` models a successful parse to `v`.
`getSize p = none` models `os.path.getsize(p)` raising (no such file).
`canWrite p = false` models `open(p, "w")` raising. -/
structure Env where
  loadJson : String → Option (Option JVal)
  getSize : String → Option Nat
  canWrite : String → Bool
  year : Nat

/-- Rendering of `"%s" % x` on an `Optional[str]`: `None` renders as `"None"`. -/
def pyStr : Option String → String
  | none => "None"
  | some s => s

/-- Python dict built by `json.load`: on duplicate keys the last wins. -/
def lookupLast (key : String) : List (String × JVal) → Option JVal
  | [] => none
  | (k, v) :: rest =>
    match lookupLast key rest with
    | some v2 => some v2
    | none => if k = key then some v else none

/-- Iteration `for entry in metadata` over the value `json.load` returned.
Arrays iterate their elements; dicts iterate their keys (as strings);
strings iterate their characters; anything else raises `TypeError`. -/
def pyIterate : JVal → Except PyError (List JVal)
  | .arr es => .ok es
  | .obj kvs => .ok (kvs.map fun kv => .str kv.1)
  | .str s => .ok (s.data.map fun c => .str (String.mk [c]))
  | _ => .error .typeError

/-- Subscripting `entry["path"]`: a non-dict raises `TypeError`, a missing
key raises `KeyError`.  A non-string value for `"path"` would be handed to
`os.path.getsize`, which rejects it; we fold that into `TypeError`. -/
def entryPath : JVal → Except PyError String
  | .obj kvs =>
    match lookupLast "path" kvs with
    | some (.str p) => .ok p
    | some _ => .error .typeError
    | none => .error (.keyError "path")
  | _ => .error .typeError

/-- The metadata loop of `main`:
for each entry, read `entry["path"]`, append it to `alternatives`, and fold
`max_size = max(max_size, os.path.getsize(alternative))`. -/
def stubLoop (env : Env) : List JVal → List String → Nat →
    Except PyError (List String × Nat)
  | [], alts, maxSize => .ok (alts, maxSize)
  | entry :: rest, alts, maxSize =>
    match entryPath entry with
    | .error e => .error e
    | .ok p =>
      match env.getSize p with
      | none => .error (.osError p)
      | some sz => stubLoop env rest (alts ++ [p]) (max maxSize sz)

/-- The identifier `"CASE_ID_%s" % args.name.upper()`.  `str.upper` is modelled by
`String.toUpper` (the function names fed to this build tool are ASCII
identifiers, where the two coincide). -/
def case_id (name : String) : String := "CASE_ID_" ++ name.toUpper

/-- Python `sorted` on a list of strings: lexicographic by code point,
which is exactly the linear order on `String`. -/
def pySorted (l : List String) : List String := List.insertionSort (· ≤ ·) l

/-- The template `STUB_CONTENTS` from the source, rendered by `substitute`
with the values `main` passes (year, header, function name, case id, size). -/
def STUB_CONTENTS (year : Nat) (header function_name caseId : String)
    (size : Nat) : String :=
  "// Copyright " ++ toString year ++ " The Fuchsia Authors\n" ++
  "//\n" ++
  "// Use of this source code is governed by a MIT-style\n" ++
  "// license that can be found in the LICENSE file or at\n" ++
  "// https://opensource.org/licenses/MIT\n" ++
  "\n" ++
  "// GENERATED BY //zircon/kernel/lib/code-patching/hermetic-stub.py.\n" ++
  "// DO NOT EDIT.\n" ++
  "\n" ++
  "#include <lib/arch/asm.h>\n" ++
  "#include <lib/code-patching/asm.h>\n" ++
  "#include <" ++ header ++ ">  // Defines " ++ caseId ++ ".\n" ++
  "\n" ++
  ".text\n" ++
  "\n" ++
  ".function " ++ function_name ++ ", global\n" ++
  "  .code_patching.blob " ++ toString size ++ ", " ++ caseId ++ "\n" ++
  ".end_function\n"

/-- The template `ALIAS` from the source, rendered by `substitute`: one
alias block. -/
def ALIAS (aliasName function_name : String) : String :=
  "\n" ++
  ".weak " ++ aliasName ++ "\n" ++
  ".hidden " ++ aliasName ++ "\n" ++
  aliasName ++ " = " ++ function_name ++ "\n"

/-- What each output file holds on disk when the process ends, and the
exception (if any) the process died with.  `none` means the file was never
created by this run. -/
structure RunResult where
  depfileOut : Option String
  outfileOut : Option String
  error : Option PyError

/-- The whole of `main` after argument parsing, step by step in source
order:
1. `open(args.metadata_file)` + `json.load` (a `None` path raises
   `TypeError`, a missing file `FileNotFoundError`, bad JSON
   `JSONDecodeError`);
2. the metadata loop (`stubLoop`);
3. `open(args.depfile, "w")` and the single `depfile.write` of
   `"%s: %s\n" % (args.outfile, " ".join(sorted(alternatives)))` — note the
   depfile is closed before the outfile is touched;
4. `open(args.outfile, "w")` — opening truncates/creates the file at once;
5. rendering `STUB_CONTENTS`:  `args.name.upper()` on an omitted `--name`
   raises `AttributeError` after the outfile is already open and empty;
6. the alias loop appending `ALIAS` blocks in argument order. -/
def run (env : Env) (args : Args) : RunResult :=
  match args.metadata_file with
  | none => ⟨none, none, some .typeError⟩
  | some mf =>
    match env.loadJson mf with
    | none => ⟨none, none, some (.fileNotFoundError mf)⟩
    | some none => ⟨none, none, some .jsonDecodeError⟩
    | some (some metadata) =>
      match pyIterate metadata with
      | .error e => ⟨none, none, some e⟩
      | .ok entries =>
        match stubLoop env entries [] 0 with
        | .error e => ⟨none, none, some e⟩
        | .ok (alternatives, maxSize) =>
          match args.depfile with
          | none => ⟨none, none, some .typeError⟩
          | some dp =>
            if env.canWrite dp then
              let depContents := pyStr args.outfile ++ ": " ++
                String.intercalate " " (pySorted alternatives) ++ "\n"
              match args.outfile with
              | none => ⟨some depContents, none, some .typeError⟩
              | some out =>
                if env.canWrite out then
                  match args.name with
                  | none => ⟨some depContents, some "", some .attributeError⟩
                  | some nm =>
                    let stub := STUB_CONTENTS env.year (pyStr args.header)
                      nm (case_id nm) maxSize
                    let full := args.aliases.foldl
                      (fun acc a => acc ++ ALIAS a nm) stub
                    ⟨some depContents, some full, none⟩
                else ⟨some depContents, none, some (.osError out)⟩
            else ⟨none, none, some (.osError dp)⟩

/-- A metadata entry `{"path": p}`. -/
def mkEntry (p : String) : JVal := .obj [("path", .str p)]

/-- The text the alias loop appends after the stub template: one `ALIAS`
block per alias, in argument order. -/
def aliasSection (function_name : String) : List String → String
  | [] => ""
  | a :: rest => ALIAS a function_name ++ aliasSection function_name rest

/-! ### Spec-side decompositions

The definitions below transcribe the description in the spec of the outputs
(section 6, "Output file 2" and the alias blocks).  They are compared with
the source-side template `STUB_CONTENTS` / `ALIAS` in the theorems. -/

/-- Spec: "a license header with the current year". -/
def licenseHeader (year : Nat) : String :=
  "// Copyright " ++ toString year ++ " The Fuchsia Authors\n" ++
  "//\n" ++
  "// Use of this source code is governed by a MIT-style\n" ++
  "// license that can be found in the LICENSE file or at\n" ++
  "// https://opensource.org/licenses/MIT\n"

/-- Spec: "a generated-file warning comment". -/
def generatedWarning : String :=
  "\n" ++
  "// GENERATED BY //zircon/kernel/lib/code-patching/hermetic-stub.py.\n" ++
  "// DO NOT EDIT.\n"

/-- Spec: "an include of the assembly-support header". -/
def includeAsmSupport : String :=
  "\n" ++
  "#include <lib/arch/asm.h>\n"

/-- Spec: "an include of the code-patching-support header". -/
def includeCodePatchingSupport : String :=
  "#include <lib/code-patching/asm.h>\n"

/-- Spec: "an include of the caller-supplied header". -/
def includeCallerHeader (header caseId : String) : String :=
  "#include <" ++ header ++ ">  // Defines " ++ caseId ++ ".\n"

/-- Spec: "a global function declaration containing one patch-placeholder
directive parameterized by (size, case-identifier)". -/
def globalFunctionDecl (function_name : String) (size : Nat)
    (caseId : String) : String :=
  "\n" ++
  ".text\n" ++
  "\n" ++
  ".function " ++ function_name ++ ", global\n" ++
  "  .code_patching.blob " ++ toString size ++ ", " ++ caseId ++ "\n" ++
  ".end_function\n"

/-- Spec: the alias "declares the alias as a weak ... symbol". -/
def weakDirective (s : String) : String := ".weak " ++ s ++ "\n"

/-- Spec: the alias is declared "hidden". -/
def hiddenDirective (s : String) : String := ".hidden " ++ s ++ "\n"

/-- Spec: the alias is "bound to the same address as the function". -/
def symbolAssignment (aliasName function_name : String) : String :=
  aliasName ++ " = " ++ function_name ++ "\n"

/-- Concatenation of a list of strings, in order. -/
def concatStrings : List String → String
  | [] => ""
  | s :: rest => s ++ concatStrings rest

/-- Everything in the rendered template before the case identifier of the
caller-header include line. -/
def stubUpToInclude (year : Nat) (header : String) : String :=
  licenseHeader year ++ generatedWarning ++ includeAsmSupport ++
  includeCodePatchingSupport ++ "#include <" ++ header ++ ">  // Defines "

/-- Everything in the rendered template after the substituted year. -/
def stubAfterYear (header function_name caseId : String) (size : Nat) : String :=
  " The Fuchsia Authors\n" ++
  "//\n" ++
  "// Use of this source code is governed by a MIT-style\n" ++
  "// license that can be found in the LICENSE file or at\n" ++
  "// https://opensource.org/licenses/MIT\n" ++
  "\n" ++
  "// GENERATED BY //zircon/kernel/lib/code-patching/hermetic-stub.py.\n" ++
  "// DO NOT EDIT.\n" ++
  "\n" ++
  "#include <lib/arch/asm.h>\n" ++
  "#include <lib/code-patching/asm.h>\n" ++
  "#include <" ++ header ++ ">  // Defines " ++ caseId ++ ".\n" ++
  "\n" ++
  ".text\n" ++
  "\n" ++
  ".function " ++ function_name ++ ", global\n" ++
  "  .code_patching.blob " ++ toString size ++ ", " ++ caseId ++ "\n" ++
  ".end_function\n"

/-! ### Concrete test fixtures (used by the witnesses) -/

/-- A small filesystem: `meta.json` lists `b.S` (30 bytes) and `a.S`
(10 bytes); `bad.json` exists but is not valid JSON; `dangling.json` lists
a path that does not exist on disk; everything is writable; the year is
2026. -/
def testEnv : Env := Env.mk
  (fun p =>
    if p = "meta.json" then some (some (JVal.arr [mkEntry "b.S", mkEntry "a.S"]))
    else if p = "bad.json" then some none
    else if p = "dangling.json" then some (some (JVal.arr [mkEntry "ghost.S"]))
    else if p = "empty.json" then some (some (JVal.arr []))
    else none)
  (fun p => if p = "a.S" then some 10 else if p = "b.S" then some 30 else none)
  (fun _ => true)
  2026

/-- The byte sizes of the files of `testEnv`, as a total function. -/
def testSz : String → Nat := fun p => if p = "a.S" then 10 else 30

/-- Same filesystem as `testEnv`, but only `dep.d` is writable. -/
def testEnvRO : Env :=
  Env.mk testEnv.loadJson testEnv.getSize (fun p => p == "dep.d") 2026

/-! ### Helper lemmas -/

theorem foldl_alias (nm : String) (als : List String) :
    ∀ init : String,
      als.foldl (fun acc a => acc ++ ALIAS a nm) init = init ++ aliasSection nm als := by
  induction als with
  | nil => intro init; simp [aliasSection, String.append_empty]
  | cons a rest ih =>
    intro init
    simp only [List.foldl_cons, aliasSection, ih, String.append_assoc]

theorem entryPath_mkEntry (p : String) : entryPath (mkEntry p) = .ok p := by
  simp [entryPath, mkEntry, lookupLast]

theorem stubLoop_ok (env : Env) (ps : List String) (sz : String → Nat)
    (h : ∀ p ∈ ps, env.getSize p = some (sz p)) :
    ∀ (alts : List String) (m : Nat),
      stubLoop env (ps.map mkEntry) alts m =
        .ok (alts ++ ps, (ps.map sz).foldl max m) := by
  induction ps with
  | nil => intro alts m; simp [stubLoop]
  | cons p rest ih =>
    intro alts m
    have hp : env.getSize p = some (sz p) := h p (by simp)
    simp only [List.map_cons, stubLoop, entryPath_mkEntry, hp]
    rw [ih (fun q hq => h q (by simp [hq])) (alts ++ [p]) (max m (sz p))]
    simp

theorem self_le_foldl_max (l : List Nat) : ∀ m : Nat, m ≤ l.foldl max m := by
  induction l with
  | nil => intro m; simp
  | cons x rest ih =>
    intro m
    exact le_trans (le_max_left m x) (ih (max m x))

theorem mem_le_foldl_max (l : List Nat) :
    ∀ m : Nat, ∀ x ∈ l, x ≤ l.foldl max m := by
  induction l with
  | nil => intro m x hx; cases hx
  | cons y rest ih =>
    intro m x hx
    rcases List.mem_cons.mp hx with h | h
    · subst h
      exact le_trans (le_max_right m x) (self_le_foldl_max rest (max m x))
    · exact ih (max m y) x h

theorem foldl_max_eq_or_mem (l : List Nat) :
    ∀ m : Nat, l.foldl max m = m ∨ l.foldl max m ∈ l := by
  induction l with
  | nil => intro m; left; rfl
  | cons y rest ih =>
    intro m
    rw [List.foldl_cons]
    rcases ih (max m y) with h | h
    · rw [h]
      rcases max_cases m y with ⟨hm, _⟩ | ⟨hm, _⟩
      · left; exact hm
      · right; rw [hm]; exact List.mem_cons_self y rest
    · right; exact List.mem_cons_of_mem y h

/-- A run in which every input is present and well formed: the exact
contents of both output files. -/
theorem run_success (env : Env) (nm : String) (hd : Option String) (mf : String)
    (als : List String) (dp out : String) (ps : List String) (sz : String → Nat)
    (hload : env.loadJson mf = some (some (JVal.arr (ps.map mkEntry))))
    (hsz : ∀ p ∈ ps, env.getSize p = some (sz p))
    (hdp : env.canWrite dp = true) (hout : env.canWrite out = true) :
    run env (Args.mk (some nm) hd (some mf) als (some dp) (some out)) =
      ⟨some (out ++ ": " ++ String.intercalate " " (pySorted ps) ++ "\n"),
       some (STUB_CONTENTS env.year (pyStr hd) nm (case_id nm)
               ((ps.map sz).foldl max 0) ++ aliasSection nm als),
       none⟩ := by
  simp [run, hload, pyIterate, stubLoop_ok env ps sz hsz [] 0, hdp, hout, pyStr,
        foldl_alias]

/-- The rendered template, cut into the sections named by the spec. -/
theorem STUB_CONTENTS_decomp (y : Nat) (h fn c : String) (s : Nat) :
    STUB_CONTENTS y h fn c s =
      licenseHeader y ++ generatedWarning ++ includeAsmSupport ++
      includeCodePatchingSupport ++ includeCallerHeader h c ++
      globalFunctionDecl fn s c := by
  simp only [STUB_CONTENTS, licenseHeader, generatedWarning, includeAsmSupport,
    includeCodePatchingSupport, includeCallerHeader, globalFunctionDecl,
    String.append_assoc]

/-- The rendered template, cut immediately around the substituted year. -/
theorem STUB_CONTENTS_year (y : Nat) (h fn c : String) (s : Nat) :
    STUB_CONTENTS y h fn c s =
      "// Copyright " ++ (toString y ++ stubAfterYear h fn c s) := by
  simp only [STUB_CONTENTS, stubAfterYear, String.append_assoc]

/-- The rendered template, cut around the case identifier on the include
line. -/
theorem STUB_CONTENTS_caseId (y : Nat) (h fn c : String) (s : Nat) :
    STUB_CONTENTS y h fn c s =
      stubUpToInclude y h ++
      (c ++
        (".\n" ++ "\n" ++ ".text\n" ++ "\n" ++
         ".function " ++ fn ++ ", global\n" ++
         "  .code_patching.blob " ++ toString s ++ ", " ++ c ++ "\n" ++
         ".end_function\n")) := by
  simp only [STUB_CONTENTS, stubUpToInclude, licenseHeader, generatedWarning,
    includeAsmSupport, includeCodePatchingSupport, String.append_assoc]

/-- The alias text is the concatenation, in argument order, of one
spec-shaped block per alias. -/
theorem aliasSection_eq_spec (nm : String) (als : List String) :
    aliasSection nm als =
      concatStrings (als.map fun a =>
        "\n" ++ weakDirective a ++ hiddenDirective a ++ symbolAssignment a nm) := by
  induction als with
  | nil => rfl
  | cons a rest ih =>
    simp only [aliasSection, List.map_cons, concatStrings, ih, ALIAS,
      weakDirective, hiddenDirective, symbolAssignment, String.append_assoc]

/-- A missing or unreadable metadata file kills the run before anything is
written. -/
theorem run_load_missing (env : Env) (args : Args) (mf : String)
    (hmf : args.metadata_file = some mf) (h : env.loadJson mf = none) :
    run env args = ⟨none, none, some (.fileNotFoundError mf)⟩ := by
  simp [run, hmf, h]

/-- Malformed metadata JSON kills the run before anything is written. -/
theorem run_load_malformed (env : Env) (args : Args) (mf : String)
    (hmf : args.metadata_file = some mf) (h : env.loadJson mf = some none) :
    run env args = ⟨none, none, some .jsonDecodeError⟩ := by
  simp [run, hmf, h]

/-- If some listed path has no size, the metadata loop raises `OSError` at
the first such path. -/
theorem stubLoop_missing (env : Env) :
    ∀ (ps alts : List String) (m : Nat),
      (∃ p ∈ ps, env.getSize p = none) →
      ∃ q ∈ ps, env.getSize q = none ∧
        stubLoop env (ps.map mkEntry) alts m = Except.error (.osError q) := by
  intro ps
  induction ps with
  | nil =>
    intro alts m h
    rcases h with ⟨p, hp, _⟩
    cases hp
  | cons p rest ih =>
    intro alts m h
    by_cases hp : env.getSize p = none
    · refine ⟨p, by simp, hp, ?_⟩
      simp only [List.map_cons, stubLoop, entryPath_mkEntry, hp]
    · rcases Option.ne_none_iff_exists'.mp hp with ⟨s, hs⟩
      have hrest : ∃ q ∈ rest, env.getSize q = none := by
        rcases h with ⟨q, hq, hqn⟩
        rcases List.mem_cons.mp hq with rfl | hq2
        · exact absurd hqn hp
        · exact ⟨q, hq2, hqn⟩
      rcases ih (alts ++ [p]) (max m s) hrest with ⟨q, hq, hqn, heq⟩
      refine ⟨q, List.mem_cons_of_mem p hq, hqn, ?_⟩
      simp only [List.map_cons, stubLoop, entryPath_mkEntry, hs]
      exact heq

/-- A listed alternative missing on disk kills the run before anything is
written. -/
theorem run_missing_alternative (env : Env) (args : Args) (mf : String)
    (ps : List String) (hmf : args.metadata_file = some mf)
    (hload : env.loadJson mf = some (some (JVal.arr (ps.map mkEntry))))
    (h : ∃ p ∈ ps, env.getSize p = none) :
    ∃ q ∈ ps, env.getSize q = none ∧
      run env args = ⟨none, none, some (.osError q)⟩ := by
  rcases stubLoop_missing env ps [] 0 h with ⟨q, hq, hqn, heq⟩
  refine ⟨q, hq, hqn, ?_⟩
  simp [run, hmf, hload, pyIterate, heq]

/-! ### The claims -/

/-- Claim C1: for every metadata file containing a JSON array of entries
whose `path` fields name existing files, the size substituted into the
generated stub equals the maximum on-disk byte size among those alternative
files, and for an empty metadata array the size is 0. -/
theorem C1_stub_size_is_max (env : Env) (nm : String) (hd : Option String)
    (mf : String) (als : List String) (dp out : String) (ps : List String)
    (sz : String → Nat)
    (hload : env.loadJson mf = some (some (JVal.arr (ps.map mkEntry))))
    (hsz : ∀ p ∈ ps, env.getSize p = some (sz p))
    (hdp : env.canWrite dp = true) (hout : env.canWrite out = true) :
    ∃ S : Nat,
      (run env (Args.mk (some nm) hd (some mf) als (some dp) (some out))).outfileOut =
        some (STUB_CONTENTS env.year (pyStr hd) nm (case_id nm) S ++
              aliasSection nm als) ∧
      (∀ p ∈ ps, sz p ≤ S) ∧
      (ps = [] → S = 0) ∧
      (ps ≠ [] → ∃ p ∈ ps, S = sz p) := by
  refine ⟨(ps.map sz).foldl max 0, ?_, ?_, ?_, ?_⟩
  · rw [run_success env nm hd mf als dp out ps sz hload hsz hdp hout]
  · intro p hp
    exact mem_le_foldl_max (ps.map sz) 0 (sz p) (List.mem_map_of_mem sz hp)
  · intro h; subst h; rfl
  · intro hne
    rcases foldl_max_eq_or_mem (ps.map sz) 0 with h | h
    · rcases List.exists_mem_of_ne_nil ps hne with ⟨p0, hp0⟩
      have h1 : sz p0 ≤ (ps.map sz).foldl max 0 :=
        mem_le_foldl_max (ps.map sz) 0 (sz p0) (List.mem_map_of_mem sz hp0)
      exact ⟨p0, hp0, by omega⟩
    · rcases List.mem_map.mp h with ⟨p, hp, hpe⟩
      exact ⟨p, hp, hpe.symm⟩

/-- Claim C1, instantiated: metadata listing `b.S` (30 bytes) and `a.S`
(10 bytes). -/
theorem C1_witness :
    ∃ S : Nat,
      (run testEnv (Args.mk (some "foo") (some "patch.h") (some "meta.json") []
          (some "dep.d") (some "out.S"))).outfileOut =
        some (STUB_CONTENTS testEnv.year (pyStr (some "patch.h")) "foo"
              (case_id "foo") S ++ aliasSection "foo" []) ∧
      (∀ p ∈ ["b.S", "a.S"], testSz p ≤ S) ∧
      (["b.S", "a.S"] = ([] : List String) → S = 0) ∧
      (["b.S", "a.S"] ≠ ([] : List String) → ∃ p ∈ ["b.S", "a.S"], S = testSz p) :=
  C1_stub_size_is_max testEnv "foo" (some "patch.h") "meta.json" [] "dep.d"
    "out.S" ["b.S", "a.S"] testSz rfl (by decide) rfl rfl

/-- Claim C2: for every invocation with a valid function name, the case
identifier embedded in the generated stub equals `CASE_ID_` followed by the
function name uppercased; the header, metadata, sizes, alias list and year
are all quantified here and the embedded identifier depends on none of
them. -/
theorem C2_case_identifier (env : Env) (nm : String) (hd : Option String)
    (mf : String) (als : List String) (dp out : String) (ps : List String)
    (sz : String → Nat)
    (hload : env.loadJson mf = some (some (JVal.arr (ps.map mkEntry))))
    (hsz : ∀ p ∈ ps, env.getSize p = some (sz p))
    (hdp : env.canWrite dp = true) (hout : env.canWrite out = true) :
    ∃ pre post : String,
      (run env (Args.mk (some nm) hd (some mf) als (some dp) (some out))).outfileOut =
        some (pre ++ ("CASE_ID_" ++ nm.toUpper) ++ post) := by
  refine ⟨stubUpToInclude env.year (pyStr hd),
    ".\n" ++ "\n" ++ ".text\n" ++ "\n" ++ ".function " ++ nm ++ ", global\n" ++
    "  .code_patching.blob " ++ toString ((ps.map sz).foldl max 0) ++ ", " ++
    ("CASE_ID_" ++ nm.toUpper) ++ "\n" ++ ".end_function\n" ++
    aliasSection nm als, ?_⟩
  rw [run_success env nm hd mf als dp out ps sz hload hsz hdp hout]
  show some (STUB_CONTENTS env.year (pyStr hd) nm (case_id nm)
      ((ps.map sz).foldl max 0) ++ aliasSection nm als) = _
  rw [STUB_CONTENTS_caseId]
  simp only [case_id, String.append_assoc]

/-- Claim C2, instantiated at function name `foo`. -/
theorem C2_witness :
    ∃ pre post : String,
      (run testEnv (Args.mk (some "foo") (some "patch.h") (some "meta.json")
          ["bar"] (some "dep.d") (some "out.S"))).outfileOut =
        some (pre ++ ("CASE_ID_" ++ "foo".toUpper) ++ post) :=
  C2_case_identifier testEnv "foo" (some "patch.h") "meta.json" ["bar"]
    "dep.d" "out.S" ["b.S", "a.S"] testSz rfl (by decide) rfl rfl

/-- Claim C3: for every valid invocation, the dependency file is a single
newline-terminated record `<outfile>: <path1> <path2> ...` whose path list
is sorted lexicographically ascending, space-separated, and is a
permutation of the `path` values of the metadata file. -/
theorem C3_depfile_sorted (env : Env) (nm : String) (hd : Option String)
    (mf : String) (als : List String) (dp out : String) (ps : List String)
    (sz : String → Nat)
    (hload : env.loadJson mf = some (some (JVal.arr (ps.map mkEntry))))
    (hsz : ∀ p ∈ ps, env.getSize p = some (sz p))
    (hdp : env.canWrite dp = true) (hout : env.canWrite out = true) :
    ∃ L : List String,
      (run env (Args.mk (some nm) hd (some mf) als (some dp) (some out))).depfileOut =
        some (out ++ ": " ++ String.intercalate " " L ++ "\n") ∧
      L.Sorted (· ≤ ·) ∧ L.Perm ps := by
  refine ⟨pySorted ps, ?_, ?_, ?_⟩
  · rw [run_success env nm hd mf als dp out ps sz hload hsz hdp hout]
  · exact List.sorted_insertionSort (· ≤ ·) ps
  · exact List.perm_insertionSort (· ≤ ·) ps

/-- Claim C3, instantiated: the unsorted metadata order `b.S`, `a.S`. -/
theorem C3_witness :
    ∃ L : List String,
      (run testEnv (Args.mk (some "foo") (some "patch.h") (some "meta.json") []
          (some "dep.d") (some "out.S"))).depfileOut =
        some ("out.S" ++ ": " ++ String.intercalate " " L ++ "\n") ∧
      L.Sorted (· ≤ ·) ∧ L.Perm ["b.S", "a.S"] :=
  C3_depfile_sorted testEnv "foo" (some "patch.h") "meta.json" [] "dep.d"
    "out.S" ["b.S", "a.S"] testSz rfl (by decide) rfl rfl

/-- Claim C4: for every list of alias arguments, the stub file is the
rendered template followed by exactly one alias block per alias argument,
in argument order, each block declaring the alias weak, hidden, and equal
to the function name. -/
theorem C4_alias_blocks (env : Env) (nm : String) (hd : Option String)
    (mf : String) (als : List String) (dp out : String) (ps : List String)
    (sz : String → Nat)
    (hload : env.loadJson mf = some (some (JVal.arr (ps.map mkEntry))))
    (hsz : ∀ p ∈ ps, env.getSize p = some (sz p))
    (hdp : env.canWrite dp = true) (hout : env.canWrite out = true) :
    ∃ S : Nat,
      (run env (Args.mk (some nm) hd (some mf) als (some dp) (some out))).outfileOut =
        some (STUB_CONTENTS env.year (pyStr hd) nm (case_id nm) S ++
          concatStrings (als.map fun a =>
            "\n" ++ weakDirective a ++ hiddenDirective a ++
            symbolAssignment a nm)) := by
  refine ⟨(ps.map sz).foldl max 0, ?_⟩
  rw [run_success env nm hd mf als dp out ps sz hload hsz hdp hout,
    ← aliasSection_eq_spec]

/-- Claim C4, instantiated with aliases `bar`, `baz` (in that order). -/
theorem C4_witness :
    ∃ S : Nat,
      (run testEnv (Args.mk (some "foo") (some "patch.h") (some "meta.json")
          ["bar", "baz"] (some "dep.d") (some "out.S"))).outfileOut =
        some (STUB_CONTENTS testEnv.year (pyStr (some "patch.h")) "foo"
          (case_id "foo") S ++
          concatStrings (["bar", "baz"].map fun a =>
            "\n" ++ weakDirective a ++ hiddenDirective a ++
            symbolAssignment a "foo")) :=
  C4_alias_blocks testEnv "foo" (some "patch.h") "meta.json" ["bar", "baz"]
    "dep.d" "out.S" ["b.S", "a.S"] testSz rfl (by decide) rfl rfl

/-- Claim C5: the tool fails with a fatal, uncaught error whenever the
metadata file is missing or unreadable, the metadata is not well-formed
JSON, or some listed alternative path does not exist on disk.  In each case
the run ends with the corresponding raised exception. -/
theorem C5_fatal_errors (env : Env) (args : Args) (mf : String)
    (hmf : args.metadata_file = some mf) :
    (env.loadJson mf = none →
      (run env args).error = some (.fileNotFoundError mf)) ∧
    (env.loadJson mf = some none →
      (run env args).error = some .jsonDecodeError) ∧
    (∀ ps : List String,
      env.loadJson mf = some (some (JVal.arr (ps.map mkEntry))) →
      (∃ p ∈ ps, env.getSize p = none) →
      ∃ q ∈ ps, env.getSize q = none ∧
        (run env args).error = some (.osError q)) := by
  refine ⟨fun h => by rw [run_load_missing env args mf hmf h],
          fun h => by rw [run_load_malformed env args mf hmf h],
          fun ps hload h => ?_⟩
  rcases run_missing_alternative env args mf ps hmf hload h with ⟨q, hq, hqn, heq⟩
  exact ⟨q, hq, hqn, by rw [heq]⟩

/-- Claim C5, instantiated at `dangling.json`, whose single entry names the
nonexistent file `ghost.S`. -/
theorem C5_witness :
    (testEnv.loadJson "dangling.json" = none →
      (run testEnv (Args.mk (some "foo") (some "patch.h")
          (some "dangling.json") [] (some "dep.d") (some "out.S"))).error =
        some (.fileNotFoundError "dangling.json")) ∧
    (testEnv.loadJson "dangling.json" = some none →
      (run testEnv (Args.mk (some "foo") (some "patch.h")
          (some "dangling.json") [] (some "dep.d") (some "out.S"))).error =
        some .jsonDecodeError) ∧
    (∀ ps : List String,
      testEnv.loadJson "dangling.json" =
        some (some (JVal.arr (ps.map mkEntry))) →
      (∃ p ∈ ps, testEnv.getSize p = none) →
      ∃ q ∈ ps, testEnv.getSize q = none ∧
        (run testEnv (Args.mk (some "foo") (some "patch.h")
            (some "dangling.json") [] (some "dep.d") (some "out.S"))).error =
          some (.osError q)) :=
  C5_fatal_errors testEnv
    (Args.mk (some "foo") (some "patch.h") (some "dangling.json") []
      (some "dep.d") (some "out.S")) "dangling.json" rfl

/-- Claim C6: with the filesystem fixed, two runs in the same year produce
identical results, and two runs in different years produce an identical
dependency file and stub files that differ exactly in the substituted year
(common prefix `"// Copyright "`, common suffix everything after the
year). -/
theorem C6_determinism (lj : String → Option (Option JVal))
    (gs : String → Option Nat) (cw : String → Bool) (y1 y2 : Nat)
    (nm : String) (hd : Option String) (mf : String) (als : List String)
    (dp out : String) (ps : List String) (sz : String → Nat)
    (hload : lj mf = some (some (JVal.arr (ps.map mkEntry))))
    (hsz : ∀ p ∈ ps, gs p = some (sz p))
    (hdp : cw dp = true) (hout : cw out = true) :
    (y1 = y2 →
      run (Env.mk lj gs cw y1)
          (Args.mk (some nm) hd (some mf) als (some dp) (some out)) =
      run (Env.mk lj gs cw y2)
          (Args.mk (some nm) hd (some mf) als (some dp) (some out))) ∧
    (run (Env.mk lj gs cw y1)
        (Args.mk (some nm) hd (some mf) als (some dp) (some out))).depfileOut =
      (run (Env.mk lj gs cw y2)
        (Args.mk (some nm) hd (some mf) als (some dp) (some out))).depfileOut ∧
    ∃ pre post : String,
      (run (Env.mk lj gs cw y1)
          (Args.mk (some nm) hd (some mf) als (some dp) (some out))).outfileOut =
        some (pre ++ toString y1 ++ post) ∧
      (run (Env.mk lj gs cw y2)
          (Args.mk (some nm) hd (some mf) als (some dp) (some out))).outfileOut =
        some (pre ++ toString y2 ++ post) := by
  have h1 := run_success (Env.mk lj gs cw y1) nm hd mf als dp out ps sz
    hload hsz hdp hout
  have h2 := run_success (Env.mk lj gs cw y2) nm hd mf als dp out ps sz
    hload hsz hdp hout
  refine ⟨fun h => by rw [h], by rw [h1, h2], ?_⟩
  refine ⟨"// Copyright ",
    stubAfterYear (pyStr hd) nm (case_id nm) ((ps.map sz).foldl max 0) ++
      aliasSection nm als, ?_, ?_⟩
  · rw [h1]
    show some (STUB_CONTENTS y1 (pyStr hd) nm (case_id nm)
        ((ps.map sz).foldl max 0) ++ aliasSection nm als) = _
    rw [STUB_CONTENTS_year]
    simp only [String.append_assoc]
  · rw [h2]
    show some (STUB_CONTENTS y2 (pyStr hd) nm (case_id nm)
        ((ps.map sz).foldl max 0) ++ aliasSection nm als) = _
    rw [STUB_CONTENTS_year]
    simp only [String.append_assoc]

/-- Claim C6, instantiated for years 2026 and 2027 over the same
filesystem. -/
theorem C6_witness :
    (2026 = 2027 →
      run (Env.mk testEnv.loadJson testEnv.getSize (fun _ => true) 2026)
          (Args.mk (some "foo") (some "patch.h") (some "meta.json") []
            (some "dep.d") (some "out.S")) =
      run (Env.mk testEnv.loadJson testEnv.getSize (fun _ => true) 2027)
          (Args.mk (some "foo") (some "patch.h") (some "meta.json") []
            (some "dep.d") (some "out.S"))) ∧
    (run (Env.mk testEnv.loadJson testEnv.getSize (fun _ => true) 2026)
        (Args.mk (some "foo") (some "patch.h") (some "meta.json") []
          (some "dep.d") (some "out.S"))).depfileOut =
      (run (Env.mk testEnv.loadJson testEnv.getSize (fun _ => true) 2027)
        (Args.mk (some "foo") (some "patch.h") (some "meta.json") []
          (some "dep.d") (some "out.S"))).depfileOut ∧
    ∃ pre post : String,
      (run (Env.mk testEnv.loadJson testEnv.getSize (fun _ => true) 2026)
          (Args.mk (some "foo") (some "patch.h") (some "meta.json") []
            (some "dep.d") (some "out.S"))).outfileOut =
        some (pre ++ toString 2026 ++ post) ∧
      (run (Env.mk testEnv.loadJson testEnv.getSize (fun _ => true) 2027)
          (Args.mk (some "foo") (some "patch.h") (some "meta.json") []
            (some "dep.d") (some "out.S"))).outfileOut =
        some (pre ++ toString 2027 ++ post) :=
  C6_determinism testEnv.loadJson testEnv.getSize (fun _ => true) 2026 2027
    "foo" (some "patch.h") "meta.json" [] "dep.d" "out.S" ["b.S", "a.S"]
    testSz rfl (by decide) rfl rfl

/-- Claim C7: for every valid invocation the stub file is, in order: the
license header with the current year, the generated-file warning, the
include of the assembly-support header, the include of the
code-patching-support header, the include of the caller-supplied header,
the global function declaration whose body is the single patch-placeholder
directive parameterized by the computed size and the case identifier, and
the alias blocks. -/
theorem C7_stub_layout (env : Env) (nm : String) (hd : Option String)
    (mf : String) (als : List String) (dp out : String) (ps : List String)
    (sz : String → Nat)
    (hload : env.loadJson mf = some (some (JVal.arr (ps.map mkEntry))))
    (hsz : ∀ p ∈ ps, env.getSize p = some (sz p))
    (hdp : env.canWrite dp = true) (hout : env.canWrite out = true) :
    ∃ S : Nat,
      (run env (Args.mk (some nm) hd (some mf) als (some dp) (some out))).outfileOut =
        some (licenseHeader env.year ++ generatedWarning ++ includeAsmSupport ++
          includeCodePatchingSupport ++
          includeCallerHeader (pyStr hd) (case_id nm) ++
          globalFunctionDecl nm S (case_id nm) ++ aliasSection nm als) := by
  refine ⟨(ps.map sz).foldl max 0, ?_⟩
  rw [run_success env nm hd mf als dp out ps sz hload hsz hdp hout,
    STUB_CONTENTS_decomp]

/-- Claim C7, instantiated. -/
theorem C7_witness :
    ∃ S : Nat,
      (run testEnv (Args.mk (some "foo") (some "patch.h") (some "meta.json")
          ["bar"] (some "dep.d") (some "out.S"))).outfileOut =
        some (licenseHeader testEnv.year ++ generatedWarning ++
          includeAsmSupport ++ includeCodePatchingSupport ++
          includeCallerHeader (pyStr (some "patch.h")) (case_id "foo") ++
          globalFunctionDecl "foo" S (case_id "foo") ++
          aliasSection "foo" ["bar"]) :=
  C7_stub_layout testEnv "foo" (some "patch.h") "meta.json" ["bar"] "dep.d"
    "out.S" ["b.S", "a.S"] testSz rfl (by decide) rfl rfl

/-- Claim C8 is false as stated: `--name` carries no `required=True`, so an
invocation omitting the function name is accepted by argument parsing and
does produce output.  Concretely, with `--name` omitted the run writes the
full dependency file and creates the (empty) stub file before dying with
`AttributeError` from `None.upper()`. -/
theorem C8_counterexample :
    (run testEnv (Args.mk none (some "patch.h") (some "meta.json") []
        (some "dep.d") (some "out.S"))).depfileOut = some "out.S: a.S b.S\n" ∧
    (run testEnv (Args.mk none (some "patch.h") (some "meta.json") []
        (some "dep.d") (some "out.S"))).outfileOut = some "" ∧
    (run testEnv (Args.mk none (some "patch.h") (some "meta.json") []
        (some "dep.d") (some "out.S"))).error = some .attributeError := by
  have hsort : pySorted ["b.S", "a.S"] = ["a.S", "b.S"] := by
    simp [pySorted, List.insertionSort, List.orderedInsert]
    decide
  have hload : testEnv.loadJson "meta.json" =
      some (some (JVal.arr (["b.S", "a.S"].map mkEntry))) := rfl
  have hdp : testEnv.canWrite "dep.d" = true := rfl
  have hout : testEnv.canWrite "out.S" = true := rfl
  have hloop := stubLoop_ok testEnv ["b.S", "a.S"] testSz (by decide) [] 0
  simp only [List.map_cons, List.map_nil, List.nil_append] at hloop
  have hrun : run testEnv (Args.mk none (some "patch.h") (some "meta.json") []
      (some "dep.d") (some "out.S")) =
      ⟨some ("out.S" ++ ": " ++
          String.intercalate " " (pySorted ["b.S", "a.S"]) ++ "\n"),
       some "", some .attributeError⟩ := by
    simp [run, hload, pyIterate, hloop, hdp, hout, pyStr]
  rw [hrun, hsort]
  exact ⟨rfl, rfl, rfl⟩

/-- Claim C8 (amended): the function name is not enforced by argument
parsing.  An invocation that omits it is accepted; the run writes the
dependency file in full, creates (truncates) the stub file, and only then
aborts with an `AttributeError` while rendering the template, leaving the
stub file empty. -/
theorem C8_amended_no_name (env : Env) (hd : Option String) (mf : String)
    (als : List String) (dp out : String) (ps : List String)
    (sz : String → Nat)
    (hload : env.loadJson mf = some (some (JVal.arr (ps.map mkEntry))))
    (hsz : ∀ p ∈ ps, env.getSize p = some (sz p))
    (hdp : env.canWrite dp = true) (hout : env.canWrite out = true) :
    run env (Args.mk none hd (some mf) als (some dp) (some out)) =
      ⟨some (out ++ ": " ++ String.intercalate " " (pySorted ps) ++ "\n"),
       some "", some .attributeError⟩ := by
  simp [run, hload, pyIterate, stubLoop_ok env ps sz hsz [] 0, hdp, hout, pyStr]

/-- Claim C8 (amended), instantiated. -/
theorem C8_witness :
    run testEnv (Args.mk none (some "patch.h") (some "meta.json") []
        (some "dep.d") (some "out.S")) =
      ⟨some ("out.S" ++ ": " ++
          String.intercalate " " (pySorted ["b.S", "a.S"]) ++ "\n"),
       some "", some .attributeError⟩ :=
  C8_amended_no_name testEnv (some "patch.h") "meta.json" [] "dep.d" "out.S"
    ["b.S", "a.S"] testSz rfl (by decide) rfl rfl

/-- Claim C9: when the metadata file is missing or unreadable, its JSON is
malformed, or a listed alternative path does not exist on disk, the error
is raised before either output file is opened: neither the dependency file
nor the stub file is created by that run. -/
theorem C9_no_output_on_early_error (env : Env) (args : Args) (mf : String)
    (hmf : args.metadata_file = some mf) :
    (env.loadJson mf = none →
      (run env args).depfileOut = none ∧ (run env args).outfileOut = none) ∧
    (env.loadJson mf = some none →
      (run env args).depfileOut = none ∧ (run env args).outfileOut = none) ∧
    (∀ ps : List String,
      env.loadJson mf = some (some (JVal.arr (ps.map mkEntry))) →
      (∃ p ∈ ps, env.getSize p = none) →
      (run env args).depfileOut = none ∧ (run env args).outfileOut = none) := by
  refine ⟨fun h => by rw [run_load_missing env args mf hmf h]; exact ⟨rfl, rfl⟩,
          fun h => by rw [run_load_malformed env args mf hmf h]; exact ⟨rfl, rfl⟩,
          fun ps hload h => ?_⟩
  rcases run_missing_alternative env args mf ps hmf hload h with ⟨q, _, _, heq⟩
  rw [heq]
  exact ⟨rfl, rfl⟩

/-- Claim C9, instantiated at `dangling.json` (its listed alternative
`ghost.S` does not exist). -/
theorem C9_witness :
    (testEnv.loadJson "dangling.json" = none →
      (run testEnv (Args.mk (some "foo") (some "patch.h")
          (some "dangling.json") [] (some "dep.d") (some "out.S"))).depfileOut =
        none ∧
      (run testEnv (Args.mk (some "foo") (some "patch.h")
          (some "dangling.json") [] (some "dep.d") (some "out.S"))).outfileOut =
        none) ∧
    (testEnv.loadJson "dangling.json" = some none →
      (run testEnv (Args.mk (some "foo") (some "patch.h")
          (some "dangling.json") [] (some "dep.d") (some "out.S"))).depfileOut =
        none ∧
      (run testEnv (Args.mk (some "foo") (some "patch.h")
          (some "dangling.json") [] (some "dep.d") (some "out.S"))).outfileOut =
        none) ∧
    (∀ ps : List String,
      testEnv.loadJson "dangling.json" =
        some (some (JVal.arr (ps.map mkEntry))) →
      (∃ p ∈ ps, testEnv.getSize p = none) →
      (run testEnv (Args.mk (some "foo") (some "patch.h")
          (some "dangling.json") [] (some "dep.d") (some "out.S"))).depfileOut =
        none ∧
      (run testEnv (Args.mk (some "foo") (some "patch.h")
          (some "dangling.json") [] (some "dep.d") (some "out.S"))).outfileOut =
        none) :=
  C9_no_output_on_early_error testEnv
    (Args.mk (some "foo") (some "patch.h") (some "dangling.json") []
      (some "dep.d") (some "out.S")) "dangling.json" rfl

/-- Claim C10: the dependency file is fully written and closed before the
stub file is opened; if opening the stub file fails, the run still leaves
behind the complete dependency file (and the raised error). -/
theorem C10_depfile_survives (env : Env) (nm : String) (hd : Option String)
    (mf : String) (als : List String) (dp out : String) (ps : List String)
    (sz : String → Nat)
    (hload : env.loadJson mf = some (some (JVal.arr (ps.map mkEntry))))
    (hsz : ∀ p ∈ ps, env.getSize p = some (sz p))
    (hdp : env.canWrite dp = true) (hout : env.canWrite out = false) :
    run env (Args.mk (some nm) hd (some mf) als (some dp) (some out)) =
      ⟨some (out ++ ": " ++ String.intercalate " " (pySorted ps) ++ "\n"),
       none, some (.osError out)⟩ := by
  simp [run, hload, pyIterate, stubLoop_ok env ps sz hsz [] 0, hdp, hout, pyStr]

/-- Claim C10, instantiated: only `dep.d` is writable; the stub file cannot
be opened, yet the dependency file comes out complete. -/
theorem C10_witness :
    run testEnvRO (Args.mk (some "foo") (some "patch.h") (some "meta.json") []
        (some "dep.d") (some "out.S")) =
      ⟨some ("out.S" ++ ": " ++
          String.intercalate " " (pySorted ["b.S", "a.S"]) ++ "\n"),
       none, some (.osError "out.S")⟩ :=
  C10_depfile_survives testEnvRO "foo" (some "patch.h") "meta.json" []
    "dep.d" "out.S" ["b.S", "a.S"] testSz rfl (by decide) rfl rfl

end HermeticStub
